import Mathlib

/-!
Shallow embedding of the embedding-drift detection core of the RAG service:
configuration fingerprinting (`common/embedding.py`), drift state refresh and
query gating (`app/rag_service.py`), the rebuild pipeline (`common/ingest.py`),
the init flow (`init_service/init_embeddings.py`) and the distance-to-score
conversion (`app/main.py`).  Python strings are Lean `String`s, bytes are
`List Nat` (each < 256), machine words in SHA-256 are `Nat` reduced mod 2^32,
and the external vector store is a pure association list from collection names
to collections.
-/

namespace RAGDrift

/-- The ASCII whitespace characters stripped by Python's `str.strip()`
(space, tab, newline, carriage return, vertical tab, form feed). -/
def isPyWhitespace (c : Char) : Bool :=
  c = ' ' || c = '\t' || c = '\n' || c = '\x0d' || c = '\x0b' || c = '\x0c'

/-- Python's `s.strip()`: remove leading and trailing whitespace. -/
def pyStrip (s : String) : String :=
  String.mk (((s.data.dropWhile isPyWhitespace).reverse.dropWhile isPyWhitespace).reverse)

/-- `common.embedding.normalise_model_name`: `None` and the empty string are
falsy in Python, so `if not raw_model_name: return "default"`; every other
string is returned as `raw_model_name.strip()`. -/
def normalise_model_name : Option String → String
  | none => "default"
  | some s => if s = "" then "default" else pyStrip s

/-- `common.embedding.EmbeddingConfig` (frozen dataclass): the three logical
fields of the embedding configuration. -/
structure EmbeddingConfig where
  model_name : String
  implementation : String := "sentence-transformers"
  version : String := "v1"
deriving DecidableEq

/-- Lowercase hexadecimal digit for a value < 16. -/
def hexDigitChar (n : Nat) : Char :=
  if n < 10 then Char.ofNat (48 + n) else Char.ofNat (87 + n)

/-- Two lowercase hex digits of one byte. -/
def byteToHex (b : Nat) : List Char :=
  [hexDigitChar (b / 16 % 16), hexDigitChar (b % 16)]

/-- Lowercase hex string of a byte list, as `hashlib`'s `hexdigest()`. -/
def bytesToHex (bs : List Nat) : String :=
  String.mk ((bs.map byteToHex).flatten)

/-- Four lowercase hex digits of a value < 0x10000 (for `\uXXXX` escapes). -/
def hex4 (n : Nat) : List Char :=
  [hexDigitChar (n / 4096 % 16), hexDigitChar (n / 256 % 16),
   hexDigitChar (n / 16 % 16), hexDigitChar (n % 16)]

/-- UTF-8 encoding of one character (code point), as bytes. -/
def utf8EncodeCharNat (c : Char) : List Nat :=
  let n := c.toNat
  if n < 0x80 then [n]
  else if n < 0x800 then
    [0xc0 ||| (n >>> 6), 0x80 ||| (n &&& 0x3f)]
  else if n < 0x10000 then
    [0xe0 ||| (n >>> 12), 0x80 ||| ((n >>> 6) &&& 0x3f), 0x80 ||| (n &&& 0x3f)]
  else
    [0xf0 ||| (n >>> 18), 0x80 ||| ((n >>> 12) &&& 0x3f),
     0x80 ||| ((n >>> 6) &&& 0x3f), 0x80 ||| (n &&& 0x3f)]

/-- UTF-8 bytes of a string (`payload.encode("utf-8")`). -/
def utf8Bytes (s : String) : List Nat :=
  (s.data.map utf8EncodeCharNat).flatten

/-- One character of a JSON string literal under `json.dumps`'s default
`ensure_ascii=True`: the two-character escapes for `"` `\` and the control
characters with short forms, `\u00xx` for other control characters, printable
ASCII verbatim, and `\uxxxx` (with surrogate pairs above 0xFFFF) for
everything non-ASCII. -/
def jsonEscapeChar (c : Char) : List Char :=
  if c = '\"' then ['\\', '\"']
  else if c = '\\' then ['\\', '\\']
  else if c = '\x08' then ['\\', 'b']
  else if c = '\x0c' then ['\\', 'f']
  else if c = '\n' then ['\\', 'n']
  else if c = '\x0d' then ['\\', 'r']
  else if c = '\t' then ['\\', 't']
  else if c.toNat < 0x20 then '\\' :: 'u' :: hex4 c.toNat
  else if c.toNat < 0x7f then [c]
  else if c.toNat < 0x10000 then '\\' :: 'u' :: hex4 c.toNat
  else
    let m := c.toNat - 0x10000
    ('\\' :: 'u' :: hex4 (0xd800 + (m >>> 10))) ++ ('\\' :: 'u' :: hex4 (0xdc00 + (m &&& 0x3ff)))

/-- A JSON string literal: quotes around the escaped characters. -/
def jsonStringLit (s : String) : String :=
  "\"" ++ String.mk ((s.data.map jsonEscapeChar).flatten) ++ "\""

/-- Lexicographic strict comparison of character lists by code point, as
Python compares `str` values. -/
def charsLt : List Char → List Char → Bool
  | [], [] => false
  | [], _ :: _ => true
  | _ :: _, [] => false
  | a :: as, b :: bs =>
      if a.toNat < b.toNat then true
      else if b.toNat < a.toNat then false
      else charsLt as bs

/-- `a <= b` on strings, by code point. -/
def keyLe (a b : String) : Bool := !(charsLt b.data a.data)

/-- First `n` characters of a string (Python's `s[:n]`). -/
def strTake (s : String) (n : Nat) : String := String.mk (s.data.take n)

/-- Insert a key/value pair into a key-sorted association list
(ascending by key). -/
def insertByKey : String × String → List (String × String) → List (String × String)
  | p, [] => [p]
  | (k, x), (k2, x2) :: rest =>
      if keyLe k k2 then (k, x) :: (k2, x2) :: rest
      else (k2, x2) :: insertByKey (k, x) rest

/-- Sort an association list by key (insertion sort), as `sort_keys=True`. -/
def sortByKey (kvs : List (String × String)) : List (String × String) :=
  kvs.foldl (fun acc p => insertByKey p acc) []

/-- `"k1": "v1", "k2": "v2", ...` with `json.dumps`'s default separators. -/
def joinPairs : List (String × String) → String
  | [] => ""
  | [p] => jsonStringLit p.1 ++ ": " ++ jsonStringLit p.2
  | p :: q :: rest => jsonStringLit p.1 ++ ": " ++ jsonStringLit p.2 ++ ", " ++ joinPairs (q :: rest)

/-- `json.dumps(dict, sort_keys=True)` for a flat string-to-string dict:
key-sorted pairs inside braces, separated by `", "` and `": "`. -/
def jsonDumpsSortKeys (kvs : List (String × String)) : String :=
  "\x7b" ++ joinPairs (sortByKey kvs) ++ "\x7d"

/-- Reduce a `Nat` to a 32-bit word. -/
def w32 (n : Nat) : Nat := n % 4294967296

/-- Right rotation of a 32-bit word by `n` bits. -/
def rotr (n w : Nat) : Nat := w32 ((w >>> n) ||| (w <<< (32 - n)))

/-- SHA-256 `Ch(x,y,z) = (x AND y) XOR (NOT x AND z)`. -/
def shaCh (x y z : Nat) : Nat := (x &&& y) ^^^ ((x ^^^ 4294967295) &&& z)

/-- SHA-256 `Maj(x,y,z)`. -/
def shaMaj (x y z : Nat) : Nat := (x &&& y) ^^^ (x &&& z) ^^^ (y &&& z)

/-- SHA-256 Σ₀. -/
def bigSigma0 (x : Nat) : Nat := rotr 2 x ^^^ rotr 13 x ^^^ rotr 22 x

/-- SHA-256 Σ₁. -/
def bigSigma1 (x : Nat) : Nat := rotr 6 x ^^^ rotr 11 x ^^^ rotr 25 x

/-- SHA-256 σ₀. -/
def smallSigma0 (x : Nat) : Nat := rotr 7 x ^^^ rotr 18 x ^^^ (x >>> 3)

/-- SHA-256 σ₁. -/
def smallSigma1 (x : Nat) : Nat := rotr 17 x ^^^ rotr 19 x ^^^ (x >>> 10)

/-- The 64 SHA-256 round constants. -/
def sha256K : List Nat :=
  [1116352408, 1899447441, 3049323471, 3921009573, 961987163,
   1508970993, 2453635748, 2870763221, 3624381080, 310598401,
   607225278, 1426881987, 1925078388, 2162078206, 2614888103,
   3248222580, 3835390401, 4022224774, 264347078, 604807628,
   770255983, 1249150122, 1555081692, 1996064986, 2554220882,
   2821834349, 2952996808, 3210313671, 3336571891, 3584528711,
   113926993, 338241895, 666307205, 773529912, 1294757372,
   1396182291, 1695183700, 1986661051, 2177026350, 2456956037,
   2730485921, 2820302411, 3259730800, 3345764771, 3516065817,
   3600352804, 4094571909, 275423344, 430227734, 506948616,
   659060556, 883997877, 958139571, 1322822218, 1537002063,
   1747873779, 1955562222, 2024104815, 2227730452, 2361852424,
   2428436474, 2756734187, 3204031479, 3329325298]

/-- The 8 initial SHA-256 hash words. -/
def sha256H0 : List Nat :=
  [1779033703, 3144134277, 1013904242, 2773480762, 1359893119,
   2600822924, 528734635, 1541459225]

/-- `n` bytes of `v`, big-endian (most significant first). -/
def beBytes : Nat → Nat → List Nat
  | 0, _ => []
  | k + 1, v => beBytes k (v / 256) ++ [v % 256]

/-- SHA-256 padding: append `0x80`, zeros to 56 mod 64, then the 64-bit
big-endian bit length. -/
def sha256Pad (msg : List Nat) : List Nat :=
  msg ++ [0x80] ++ List.replicate ((64 - ((msg.length + 9) % 64)) % 64) 0
      ++ beBytes 8 (8 * msg.length)

/-- Split a list into chunks of `bs` elements (fuel-driven; `fuel ≥ length`
suffices when `bs > 0`). -/
def chunksGo (bs : Nat) : Nat → List Nat → List (List Nat)
  | 0, _ => []
  | _, [] => []
  | fuel + 1, l => l.take bs :: chunksGo bs fuel (l.drop bs)

/-- Chunks of `bs` consecutive elements of `l`. -/
def chunks (bs : Nat) (l : List Nat) : List (List Nat) :=
  chunksGo bs l.length l

/-- Group bytes four at a time into big-endian 32-bit words. -/
def toWords : List Nat → List Nat
  | b0 :: b1 :: b2 :: b3 :: rest =>
      (((b0 * 256 + b1) * 256 + b2) * 256 + b3) :: toWords rest
  | _ => []

/-- Extend the 16-word message schedule by `fuel` further words. -/
def scheduleGo : Nat → List Nat → List Nat
  | 0, ws => ws
  | fuel + 1, ws =>
      let i := ws.length
      scheduleGo fuel (ws ++ [w32 (smallSigma1 (ws.getD (i - 2) 0) + ws.getD (i - 7) 0
        + smallSigma0 (ws.getD (i - 15) 0) + ws.getD (i - 16) 0)])

/-- One SHA-256 compression round on the 8-word working state. -/
def compressRound (st : List Nat) (kw : Nat × Nat) : List Nat :=
  match st with
  | [a, b, c, d, e, f, g, h] =>
      let t1 := w32 (h + bigSigma1 e + shaCh e f g + kw.1 + kw.2)
      let t2 := w32 (bigSigma0 a + shaMaj a b c)
      [w32 (t1 + t2), a, b, c, w32 (d + t1), e, f, g]
  | other => other

/-- Process one 64-byte block: 64 rounds, then add into the hash words. -/
def processBlock (h : List Nat) (block : List Nat) : List Nat :=
  let ws := scheduleGo 48 (toWords block)
  let st := (sha256K.zip ws).foldl compressRound h
  List.zipWith (fun x y => w32 (x + y)) h st

/-- SHA-256 digest (32 bytes) of a byte list. -/
def sha256Bytes (msg : List Nat) : List Nat :=
  (((chunks 64 (sha256Pad msg)).foldl processBlock sha256H0).map (beBytes 4)).flatten

/-- `hashlib.sha256(...).hexdigest()` on the UTF-8 bytes of a string. -/
def sha256HexOfString (s : String) : String :=
  bytesToHex (sha256Bytes (utf8Bytes s))

/-- `EmbeddingConfig.config_id` (`common/embedding.py`): serialize the three
fields with `json.dumps(..., sort_keys=True)`, hash the UTF-8 bytes with
SHA-256, and keep the first 16 hex characters of the digest. -/
def EmbeddingConfig.config_id (c : EmbeddingConfig) : String :=
  let payload := jsonDumpsSortKeys
    [("model_name", c.model_name), ("implementation", c.implementation), ("version", c.version)]
  strTake (sha256HexOfString payload) 16

/-- The two exception classes of `common/exceptions.py`:
`EmbeddingConfigMismatchError` and `ChromaConnectionError`. -/
inductive ServiceError where
  | embeddingConfigMismatch
  | chromaConnection
deriving DecidableEq

/-- `common.ingest.Document`: id, content and metadata of one document. -/
structure Document where
  id : String
  content : String
  metadata : List (String × String)
deriving DecidableEq

/-- A Chroma collection as the drift core sees it: its metadata dict and its
stored records. -/
structure Collection where
  metadata : List (String × String)
  records : List Document
deriving DecidableEq

/-- The external vector store: an association list from collection names to
collections. -/
abbrev Store : Type := List (String × Collection)

/-- `collection.metadata.get(key)`: first value bound to `key`, if any. -/
def metaGet (m : List (String × String)) (key : String) : Option String :=
  (m.find? (fun p => p.1 = key)).map (fun p => p.2)

/-- Outcome of `client.get_collection(name=...)`: the collection, a
`NotFoundError`, or a transport failure (any other exception). -/
inductive FetchOutcome where
  | found : Collection → FetchOutcome
  | notFound
  | transportError
deriving DecidableEq

/-- What a reachable store answers to `get_collection(name)`. -/
def fetchCollection (store : Store) (name : String) : FetchOutcome :=
  match (List.find? (fun p => p.1 = name) store) with
  | some p => .found p.2
  | none => .notFound

/-- The in-memory `ServiceState` of `RAGService` (`app/rag_service.py`):
`_collection`, `_collection_embedding_config_id`,
`_embedding_drift_detected`, `_chroma_connected`. -/
structure ServiceState where
  collection : Option Collection
  collection_embedding_config_id : Option String
  embedding_drift_detected : Bool
  chroma_connected : Bool
deriving DecidableEq

/-- `RAGService.__init__`: state starts disconnected with no collection. -/
def ServiceState.init : ServiceState :=
  { collection := none, collection_embedding_config_id := none,
    embedding_drift_detected := false, chroma_connected := false }

/-- `RAGService.is_ready`: `self._chroma_connected and not
self._embedding_drift_detected`. -/
def is_ready (s : ServiceState) : Bool :=
  s.chroma_connected && !s.embedding_drift_detected

/-- `RAGService.refresh_state`: given the current configuration's
`config_id` and the store's answer, the new state and the error raised (if
any).  Mirrors the source branch for branch: `NotFoundError` leaves an
attached-but-empty connected state; a found collection without the
`embedding_config_id` metadata key is conservative drift; a stored id is
compared with `!=` against the current id; any other exception resets the
state to disconnected and re-raises as `ChromaConnectionError`. -/
def refresh_state (currentConfigId : String) (s : ServiceState)
    (outcome : FetchOutcome) : ServiceState × Option ServiceError :=
  match outcome with
  | .notFound =>
      ({ collection := none, collection_embedding_config_id := none,
         embedding_drift_detected := false, chroma_connected := true }, none)
  | .found collection =>
      match metaGet collection.metadata "embedding_config_id" with
      | none =>
          ({ collection := some collection, collection_embedding_config_id := none,
             embedding_drift_detected := true, chroma_connected := true }, none)
      | some stored_config_id =>
          let drift := stored_config_id ≠ currentConfigId
          ({ collection := some collection,
             collection_embedding_config_id := some stored_config_id,
             embedding_drift_detected := drift, chroma_connected := true }, none)
  | .transportError =>
      ({ collection := none, collection_embedding_config_id := none,
         embedding_drift_detected := false, chroma_connected := false },
       some .chromaConnection)

/-- The raw result of `collection.query(...)`: Chroma returns one inner list
per query text. -/
structure RawQueryResult where
  ids : List (List String)
  distances : List (List ℚ)
  metadatas : List (List (List (String × String)))
  documents : List (List String)

/-- The dict returned by `RAGService.query`. -/
structure QueryResult where
  question : String
  ids : List String
  distances : List ℚ
  metadatas : List (List (String × String))
  documents : List String
deriving DecidableEq

/-- `RAGService.query(question, k)`: returns the unchanged state, the number
of similarity searches issued to the store, and the outcome.  Not ready ⇒
raise `EmbeddingConfigMismatchError` before touching the store; no attached
collection ⇒ empty result without touching the store; otherwise one store
query, unwrapping the per-query lists (`results.get("ids", [[]])[0]` and
friends). -/
def query (s : ServiceState)
    (storeQuery : Collection → String → Nat → RawQueryResult)
    (question : String) (k : Nat) :
    ServiceState × Nat × Except ServiceError QueryResult :=
  if ¬ is_ready s then
    (s, 0, .error .embeddingConfigMismatch)
  else
    match s.collection with
    | none =>
        (s, 0, .ok { question := question, ids := [], distances := [],
                     metadatas := [], documents := [] })
    | some c =>
        let results := storeQuery c question k
        (s, 1, .ok { question := question,
                     ids := results.ids.headD [],
                     distances := results.distances.headD [],
                     metadatas := results.metadatas.headD [],
                     documents := results.documents.headD [] })

/-- `common.ingest._delete_collection_if_exists`: delete the collection of
that name when the store lists it (idempotent). -/
def delete_collection_if_exists (store : Store) (name : String) : Store :=
  List.filter (fun p => p.1 ≠ name) store

/-- Split documents into batches of `batch_size` (fuel-driven, mirroring
`range(0, len(docs), batch_size)`). -/
def docChunksGo (bs : Nat) : Nat → List Document → List (List Document)
  | 0, _ => []
  | _, [] => []
  | fuel + 1, l => l.take bs :: docChunksGo bs fuel (l.drop bs)

/-- Batches of `bs` consecutive documents. -/
def docChunks (bs : Nat) (l : List Document) : List (List Document) :=
  docChunksGo bs l.length l

/-- `collection.add(...)` for one batch: append the records. -/
def Collection.add (c : Collection) (batch : List Document) : Collection :=
  { c with records := c.records ++ batch }

/-- `common.ingest.rebuild_collection`: drop any existing collection of that
name, create a fresh one stamped with `embedding_config_id` and
`embedding_model_name` in its metadata, then add the documents batch by
batch.  Returns the updated store and the new collection. -/
def rebuild_collection (store : Store) (collection_name : String)
    (embedding_config_id : String) (embedding_model_name : String)
    (documents : List Document) (batch_size : Nat := 32) :
    Store × Collection :=
  let store1 := delete_collection_if_exists store collection_name
  let coll0 : Collection :=
    { metadata := [("embedding_config_id", embedding_config_id),
                   ("embedding_model_name", embedding_model_name)],
      records := [] }
  let coll := (docChunks batch_size documents).foldl Collection.add coll0
  ((collection_name, coll) :: store1, coll)

/-- `init_service.init_embeddings.main` against a reachable store: exit code,
resulting store, and whether `rebuild_collection` was invoked.  A collection
already stamped with the current `config_id` short-circuits with exit 0; a
mismatch with `REBUILD_ON_EMBEDDING_MISMATCH` false exits 1 without
touching the store; otherwise (mismatch, missing stamp, or no collection)
the collection is rebuilt. -/
def initMain (store : Store) (currentConfigId : String)
    (embedding_model : String) (rebuild_on_mismatch : Bool)
    (documents : List Document) (collection_name : String) :
    Nat × Store × Bool :=
  match fetchCollection store collection_name with
  | .found collection =>
      let stored_config_id := metaGet collection.metadata "embedding_config_id"
      if stored_config_id = some currentConfigId then
        (0, store, false)
      else if ¬ rebuild_on_mismatch then
        (1, store, false)
      else
        let (store1, _) := rebuild_collection store collection_name
          currentConfigId embedding_model documents
        (0, store1, true)
  | .notFound =>
      let (store1, _) := rebuild_collection store collection_name
        currentConfigId embedding_model documents
      (0, store1, true)
  | .transportError => (1, store, false)

/-- `app.main.distance_to_score`: `1.0 / (1.0 + d)`, idealized in exact
arithmetic over ℚ (the program computes in IEEE binary64; see
`distance_to_score_f64` for the rounded model). -/
def distance_to_score (d : ℚ) : ℚ := 1 / (1 + d)

/-- Round a nonnegative exact value to an integer, ties to even (the IEEE
default rounding direction). -/
def roundHalfEven (m : ℚ) : ℤ :=
  let fl := m.floor
  let frac := m - fl
  if frac < 1/2 then fl
  else if 1/2 < frac then fl + 1
  else if fl % 2 = 0 then fl else fl + 1

/-- Fuel-driven binade search upward: for `1 ≤ q`, halve until below 2,
counting the exponent. -/
def exp2Up (fuel : Nat) (q : ℚ) (e : ℤ) : ℤ :=
  match fuel with
  | 0 => e
  | fuel + 1 => if q < 2 then e else exp2Up fuel (q / 2) (e + 1)

/-- Fuel-driven binade search downward: for `0 < q < 1`, double until at
least 1, counting the exponent. -/
def exp2Down (fuel : Nat) (q : ℚ) (e : ℤ) : ℤ :=
  match fuel with
  | 0 => e
  | fuel + 1 => if 1 ≤ q then e else exp2Down fuel (q * 2) (e - 1)

/-- Binade exponent of a positive rational: the `e` with `2^e ≤ q < 2^(e+1)`
(fuel 2000 covers the entire binary64 range). -/
def floorLog2 (q : ℚ) : ℤ :=
  if 1 ≤ q then exp2Up 2000 q 0 else exp2Down 2000 q 0

/-- Round an exact rational to the nearest IEEE binary64 value, ties to
even: scale by the binade's unit in the last place (52 fractional mantissa
bits, exponent clamped at -1022 so subnormals round correctly) and round to
an integer multiple.  Overflow to infinity is not modelled — the distances
at play are small finite values. -/
def float64Round (q : ℚ) : ℚ :=
  if q = 0 then 0
  else if 0 < q then
    let e := max (floorLog2 q) (-1022)
    (roundHalfEven (q / 2 ^ (e - 52)) : ℚ) * 2 ^ (e - 52)
  else
    let e := max (floorLog2 (-q)) (-1022)
    Neg.neg ((roundHalfEven ((-q) / 2 ^ (e - 52)) : ℚ) * 2 ^ (e - 52))

/-- `app.main.distance_to_score` as the program actually computes it: both
the addition `1.0 + d` and the division `1.0 / ...` round to the nearest
binary64 value. -/
def distance_to_score_f64 (d : ℚ) : ℚ :=
  float64Round (1 / float64Round (1 + d))

/-- The spec's reading of the fingerprint pipeline: the canonical key-sorted
JSON serialization of the three fields, with the keys written out in
ascending order (`"implementation" < "model_name" < "version"`). -/
def canonicalSortedSerialization (c : EmbeddingConfig) : String :=
  "\x7b" ++ joinPairs [("implementation", c.implementation),
                       ("model_name", c.model_name),
                       ("version", c.version)] ++ "\x7d"

/-- The spec's reading of the fingerprint: the first 16 hexadecimal
characters of the SHA-256 hash of the UTF-8 encoding of the canonical
key-sorted serialization. -/
def specFingerprint (c : EmbeddingConfig) : String :=
  strTake (bytesToHex (sha256Bytes (utf8Bytes (canonicalSortedSerialization c)))) 16

/-- Sorting the three payload keys puts `implementation` before `model_name`
before `version`, whatever the values are. -/
theorem sortByKey_payload (m i v : String) :
    sortByKey [("model_name", m), ("implementation", i), ("version", v)]
      = [("implementation", i), ("model_name", m), ("version", v)] := by
  have h2 : insertByKey ("implementation", i) [("model_name", m)]
      = [("implementation", i), ("model_name", m)] := by
    unfold insertByKey
    rw [if_pos (by decide)]
  have e1 : insertByKey ("version", v) [("model_name", m)]
      = [("model_name", m), ("version", v)] := by
    unfold insertByKey
    rw [if_neg (by decide)]
    unfold insertByKey
    rfl
  have h3 : insertByKey ("version", v) [("implementation", i), ("model_name", m)]
      = [("implementation", i), ("model_name", m), ("version", v)] := by
    unfold insertByKey
    rw [if_neg (by decide)]
    rw [e1]
  simp only [sortByKey, List.foldl]
  rw [show insertByKey ("model_name", m) [] = [("model_name", m)] from rfl, h2, h3]

/-- Batch-adding documents never touches the collection's metadata. -/
theorem foldl_add_metadata (l : List (List Document)) (c : Collection) :
    (l.foldl Collection.add c).metadata = c.metadata := by
  induction l generalizing c with
  | nil => rfl
  | cons b rest ih => simpa [Collection.add] using ih { c with records := c.records ++ b }

set_option maxRecDepth 40000 in
/-- Sanity: the embedded SHA-256 reproduces the FIPS 180-4 test vector for
`"abc"`. -/
theorem sha256_abc_vector :
    sha256HexOfString "abc"
      = "ba7816bf8f01cfea414140de5dae2223b00361a396177a9cb410ff61f20015ad" := by
  decide

set_option maxRecDepth 40000 in
/-- Sanity: the embedded fingerprint of the default configuration equals the
value computed by the Python source
(`EmbeddingConfig(model_name="default").config_id`). -/
theorem config_id_default_value :
    EmbeddingConfig.config_id { model_name := "default" } = "57c40a235b0eb29c" := by
  decide

/-- C2 counterexample: the all-whitespace string `"   "` is truthy in
Python, so `normalise_model_name("   ")` returns `"   ".strip() = ""`, not
the literal string `"default"` the claim requires. -/
theorem normalise_blank_not_default :
    normalise_model_name (some "   ") = ""
    ∧ normalise_model_name (some "   ") ≠ "default" := by
  decide

/-- C2 (amended): `None` and the empty string normalize to `"default"`;
every other string — including all-whitespace ones — is returned trimmed of
surrounding whitespace, so `"   "` maps to `""` and `" Foo "` to `"Foo"`. -/
theorem normalise_model_name_amended :
    normalise_model_name none = "default"
    ∧ normalise_model_name (some "") = "default"
    ∧ normalise_model_name (some "   ") = ""
    ∧ normalise_model_name (some " Foo ") = "Foo"
    ∧ ∀ s : String, s ≠ "" → normalise_model_name (some s) = pyStrip s := by
  refine ⟨rfl, rfl, by decide, by decide, ?_⟩
  intro s hs
  simp [normalise_model_name, hs]

/-- C2 witness for the amended claim at the concrete input `" Bar "`. -/
theorem normalise_model_name_amended_witness :
    (" Bar " : String) ≠ ""
    ∧ normalise_model_name (some " Bar ") = pyStrip " Bar " :=
  ⟨by decide, normalise_model_name_amended.2.2.2.2 " Bar " (by decide)⟩

/-- C4: a transport/connection failure during `refresh_state` leaves the
state exactly at `connected=false, storedFingerprint=none,
driftDetected=false` and surfaces a `ChromaConnectionError` to the caller,
never swallowed. -/
theorem refresh_transport_resets (cid : String) (s : ServiceState) :
    refresh_state cid s .transportError
      = ({ collection := none, collection_embedding_config_id := none,
           embedding_drift_detected := false, chroma_connected := false },
         some .chromaConnection) := rfl

/-- C5: `config_id` equals the first 16 hexadecimal characters of the
SHA-256 hash of the UTF-8 encoding of the canonical key-sorted JSON
serialization of the three fields, and it is deterministic: configs with
identical field values yield identical fingerprints. It is a total Lean
function, so it always succeeds. -/
theorem config_id_is_spec_fingerprint (c₁ c₂ : EmbeddingConfig)
    (hm : c₁.model_name = c₂.model_name)
    (hi : c₁.implementation = c₂.implementation)
    (hv : c₁.version = c₂.version) :
    c₁.config_id = specFingerprint c₁ ∧ c₁.config_id = c₂.config_id := by
  constructor
  · unfold EmbeddingConfig.config_id specFingerprint sha256HexOfString
      canonicalSortedSerialization jsonDumpsSortKeys
    rw [sortByKey_payload]
  · obtain ⟨m₁, i₁, v₁⟩ := c₁
    obtain ⟨m₂, i₂, v₂⟩ := c₂
    dsimp only at hm hi hv
    subst hm
    subst hi
    subst hv
    rfl

/-- C5 witness at the default configuration. -/
theorem config_id_is_spec_fingerprint_witness :
    (({ model_name := "default" } : EmbeddingConfig).model_name
        = ({ model_name := "default" } : EmbeddingConfig).model_name)
    ∧ EmbeddingConfig.config_id { model_name := "default" }
        = specFingerprint { model_name := "default" }
    ∧ EmbeddingConfig.config_id { model_name := "default" }
        = EmbeddingConfig.config_id { model_name := "default" } :=
  ⟨rfl, (config_id_is_spec_fingerprint _ _ rfl rfl rfl).1,
    (config_id_is_spec_fingerprint { model_name := "default" } _ rfl rfl rfl).2⟩

/-- C8: `query` never mutates the `ServiceState`: whether it raises, returns
empty or answers from the store, the state (in particular `connected`,
`storedFingerprint` and `driftDetected`) is returned unchanged. -/
theorem query_never_mutates_state (s : ServiceState)
    (storeQuery : Collection → String → Nat → RawQueryResult)
    (question : String) (k : Nat) :
    (query s storeQuery question k).1 = s
    ∧ (query s storeQuery question k).1.chroma_connected = s.chroma_connected
    ∧ (query s storeQuery question k).1.collection_embedding_config_id
        = s.collection_embedding_config_id
    ∧ (query s storeQuery question k).1.embedding_drift_detected
        = s.embedding_drift_detected := by
  have h : (query s storeQuery question k).1 = s := by
    unfold query
    split
    · rfl
    · split <;> rfl
  exact ⟨h, by rw [h], by rw [h], by rw [h]⟩

set_option maxRecDepth 40000 in
attribute [local semireducible] Rat.add Rat.sub Rat.mul Rat.inv in
/-- C9 counterexample: in the IEEE binary64 arithmetic the program uses,
the conversion is not strictly decreasing: the distances `1/2` and
`1/2 + 2⁻⁵³` are distinct binary64 values, yet `1.0 + d` rounds to `1.5`
for both (ties to even), so they receive the identical score. -/
theorem distance_to_score_f64_not_strict :
    ((1 : ℚ)/2 < 1/2 + 1/2^53)
    ∧ distance_to_score_f64 (1/2) = distance_to_score_f64 (1/2 + 1/2^53)
    ∧ ¬ distance_to_score_f64 (1/2 + 1/2^53) < distance_to_score_f64 (1/2) := by
  refine ⟨by norm_num, by decide, ?_⟩
  rw [show distance_to_score_f64 (1/2 + 1/2^53) = distance_to_score_f64 (1/2) from by decide]
  exact lt_irrefl _

/-- C9 (amended): the distance-to-score conversion `1 / (1 + d)` is weakly
monotonically decreasing in `d` and yields a value in the bounded interval
`(0, 1]` for every distance `d ≥ 0`, so the store's ascending-distance
order is mapped to a non-increasing score order (strictness fails in the
program's binary64 arithmetic). -/
theorem distance_to_score_weakly_antitone (d₁ d₂ : ℚ)
    (h₀ : 0 ≤ d₁) (h₁₂ : d₁ ≤ d₂) :
    (0 < distance_to_score d₁ ∧ distance_to_score d₁ ≤ 1)
    ∧ distance_to_score d₂ ≤ distance_to_score d₁ := by
  have hp₁ : 0 < 1 + d₁ := by linarith
  unfold distance_to_score
  refine ⟨⟨by positivity, ?_⟩, ?_⟩
  · rw [div_le_one hp₁]
    linarith
  · exact one_div_le_one_div_of_le hp₁ (by linarith)

/-- C9 witness for the amended claim at distances 0 and 1. -/
theorem distance_to_score_weakly_antitone_witness :
    ((0 : ℚ) ≤ 0 ∧ (0 : ℚ) ≤ 1)
    ∧ ((0 < distance_to_score 0 ∧ distance_to_score 0 ≤ 1)
       ∧ distance_to_score 1 ≤ distance_to_score 0) :=
  ⟨⟨le_refl 0, by norm_num⟩,
    distance_to_score_weakly_antitone 0 1 (le_refl 0) (by norm_num)⟩

/-- C1: if the service is disconnected or drift was detected, `query` fails
with `EmbeddingConfigMismatchError` and issues no store query; if connected
and drift-free it returns the empty result without a store query when no
collection is attached, and otherwise issues exactly one store query. -/
theorem query_gating (s : ServiceState)
    (storeQuery : Collection → String → Nat → RawQueryResult)
    (question : String) (k : Nat) :
    ((s.chroma_connected = false ∨ s.embedding_drift_detected = true) →
        query s storeQuery question k = (s, 0, .error .embeddingConfigMismatch))
    ∧ (s.chroma_connected = true → s.embedding_drift_detected = false →
        (s.collection = none →
            query s storeQuery question k
              = (s, 0, .ok { question := question, ids := [], distances := [],
                             metadatas := [], documents := [] }))
        ∧ (s.collection ≠ none → (query s storeQuery question k).2.1 = 1)) := by
  constructor
  · intro h
    have hnr : is_ready s = false := by
      cases h with
      | inl h => simp [is_ready, h]
      | inr h => simp [is_ready, h]
    unfold query
    simp [hnr]
  · intro hc hd
    have hr : is_ready s = true := by simp [is_ready, hc, hd]
    constructor
    · intro hn
      unfold query
      simp [hr, hn]
    · intro hn
      cases hcol : s.collection with
      | none => exact absurd hcol hn
      | some c =>
          unfold query
          simp [hr, hcol]

/-- C1 witness: with drift detected, `query` refuses without a store call. -/
theorem query_gating_witness :
    ((ServiceState.mk none none true true).chroma_connected = false
      ∨ (ServiceState.mk none none true true).embedding_drift_detected = true)
    ∧ query (ServiceState.mk none none true true)
        (fun _ _ _ => RawQueryResult.mk [] [] [] []) "q" 3
      = (ServiceState.mk none none true true, 0, .error .embeddingConfigMismatch) :=
  ⟨Or.inr rfl,
    (query_gating (ServiceState.mk none none true true)
      (fun _ _ _ => RawQueryResult.mk [] [] [] []) "q" 3).1 (Or.inr rfl)⟩

/-- C3: refreshing against an existing collection: without an
`embedding_config_id` stamp the drift flag is conservatively set; with a
stamp the drift flag is the byte-for-byte string inequality against the
current fingerprint; in both cases the service ends up connected and the
refresh succeeds. -/
theorem refresh_found_cases (cid : String) (s : ServiceState) (coll : Collection) :
    (metaGet coll.metadata "embedding_config_id" = none →
        refresh_state cid s (.found coll)
          = ({ collection := some coll, collection_embedding_config_id := none,
               embedding_drift_detected := true, chroma_connected := true }, none))
    ∧ (∀ fp, metaGet coll.metadata "embedding_config_id" = some fp →
        refresh_state cid s (.found coll)
          = ({ collection := some coll, collection_embedding_config_id := some fp,
               embedding_drift_detected := decide (fp ≠ cid),
               chroma_connected := true }, none)) := by
  constructor
  · intro h
    unfold refresh_state
    dsimp only
    rw [h]
  · intro fp h
    unfold refresh_state
    dsimp only
    rw [h]

/-- C3 witness: a stored stamp `"aaa"` against current fingerprint `"bbb"`
yields drift. -/
theorem refresh_found_cases_witness :
    metaGet (Collection.mk [("embedding_config_id", "aaa")] []).metadata
        "embedding_config_id" = some "aaa"
    ∧ refresh_state "bbb" ServiceState.init
        (.found (Collection.mk [("embedding_config_id", "aaa")] []))
      = ({ collection := some (Collection.mk [("embedding_config_id", "aaa")] []),
           collection_embedding_config_id := some "aaa",
           embedding_drift_detected := decide (("aaa" : String) ≠ "bbb"),
           chroma_connected := true }, none) :=
  ⟨rfl, (refresh_found_cases "bbb" ServiceState.init
      (Collection.mk [("embedding_config_id", "aaa")] [])).2 "aaa" rfl⟩

/-- C6: a missing collection is not an error: refresh yields
`connected=true, storedFingerprint=none, driftDetected=false` without
failing, and a query against that state returns the empty result list
rather than failing (and without a store call). -/
theorem refresh_not_found_then_query (cid : String) (s : ServiceState)
    (storeQuery : Collection → String → Nat → RawQueryResult)
    (question : String) (k : Nat) :
    refresh_state cid s .notFound
      = ({ collection := none, collection_embedding_config_id := none,
           embedding_drift_detected := false, chroma_connected := true }, none)
    ∧ query (refresh_state cid s .notFound).1 storeQuery question k
      = ((refresh_state cid s .notFound).1, 0,
         .ok { question := question, ids := [], distances := [],
               metadatas := [], documents := [] }) :=
  ⟨rfl, rfl⟩

/-- C7: after `rebuild_collection(name, fp, ...)`, a refresh against the
same store (with the current fingerprint still `fp`) observes
`storedFingerprint = fp` and no drift. -/
theorem rebuild_then_refresh_aligned (store : Store) (name fp label : String)
    (docs : List Document) (bs : Nat) (s : ServiceState) (cid : String)
    (hcid : cid = fp) :
    refresh_state cid s
        (fetchCollection (rebuild_collection store name fp label docs bs).1 name)
      = ({ collection := some (rebuild_collection store name fp label docs bs).2,
           collection_embedding_config_id := some fp,
           embedding_drift_detected := false, chroma_connected := true }, none) := by
  rw [hcid]
  have hfetch : fetchCollection (rebuild_collection store name fp label docs bs).1 name
      = .found (rebuild_collection store name fp label docs bs).2 := by
    unfold rebuild_collection fetchCollection
    simp
  have hmeta : metaGet (rebuild_collection store name fp label docs bs).2.metadata
      "embedding_config_id" = some fp := by
    unfold rebuild_collection
    dsimp only
    rw [foldl_add_metadata]
    simp [metaGet]
  rw [hfetch]
  unfold refresh_state
  dsimp only
  rw [hmeta]
  simp

/-- C7 witness: rebuild of `"col"` stamped `"f1"` in the empty store, then a
refresh with current fingerprint `"f1"`. -/
theorem rebuild_then_refresh_aligned_witness :
    ("f1" : String) = "f1"
    ∧ refresh_state "f1" ServiceState.init
        (fetchCollection (rebuild_collection [] "col" "f1" "default" [] 32).1 "col")
      = ({ collection := some (rebuild_collection [] "col" "f1" "default" [] 32).2,
           collection_embedding_config_id := some "f1",
           embedding_drift_detected := false, chroma_connected := true }, none) :=
  ⟨rfl, rebuild_then_refresh_aligned [] "col" "f1" "default" [] 32
      ServiceState.init "f1" rfl⟩

/-- C10: when the init pipeline finds the collection already stamped with
the current fingerprint it exits 0 leaving the store untouched, without
invoking the drop-then-create rebuild. -/
theorem init_skips_matching_collection (store : Store) (cid model : String)
    (rom : Bool) (docs : List Document) (name : String) (c : Collection)
    (hfound : fetchCollection store name = .found c)
    (hstamp : metaGet c.metadata "embedding_config_id" = some cid) :
    initMain store cid model rom docs name = (0, store, false) := by
  unfold initMain
  rw [hfound]
  simp [hstamp]

/-- C10 witness: a store holding `"col"` stamped `"f1"` and current
fingerprint `"f1"`. -/
theorem init_skips_matching_collection_witness :
    fetchCollection [("col", Collection.mk [("embedding_config_id", "f1")] [])] "col"
        = .found (Collection.mk [("embedding_config_id", "f1")] [])
    ∧ metaGet (Collection.mk [("embedding_config_id", "f1")] []).metadata
        "embedding_config_id" = some "f1"
    ∧ initMain [("col", Collection.mk [("embedding_config_id", "f1")] [])]
        "f1" "default" true [] "col"
      = (0, [("col", Collection.mk [("embedding_config_id", "f1")] [])], false) :=
  ⟨rfl, rfl,
    init_skips_matching_collection _ "f1" "default" true [] "col"
      (Collection.mk [("embedding_config_id", "f1")] []) rfl rfl⟩

end RAGDrift
